import Mathlib

/-!
Shallow embedding of the BFSI compliance/quality-gate pipeline:
* `generate-compliance-report.py` (class `ComplianceReportGenerator`):
  rule classification, aggregation and report finalization;
* `security-quality-gates.py` (class `SecurityQualityGates`):
  severity / compliance / financial-rule gates and the build decision;
* `process-sarif.py` (class `SARIFProcessor`): first-match rule mapping.

Machine strings are Lean `String`s; Python float arithmetic on compliance
percentages is modelled over `ℚ` (the scores involved are exact decimals).
Fallible file I/O is outside the embedded core: the embedding starts from
the extracted per-result records, as the spec's §1 scopes the core.
-/

namespace BFSI

/-- Lowercasing of a string, character by character (Python `str.lower`
restricted to the ASCII rule identifiers used throughout the repo). -/
def lowerStr (s : String) : String :=
  ⟨s.data.map Char.toLower⟩

/-- Test whether `pat` occurs at the start of `hay` (character lists). -/
def charsStartWith : List Char → List Char → Bool
  | _, [] => true
  | [], _ :: _ => false
  | a :: as, b :: bs => a == b && charsStartWith as bs

/-- Test whether `pat` occurs as a contiguous substring of `hay`
(character lists); this is Python's `pat in hay` on strings. -/
def charsContain : List Char → List Char → Bool
  | [], pat => pat.isEmpty
  | h :: t, pat => charsStartWith (h :: t) pat || charsContain t pat

/-- Python's substring test `pat in hay` for `String`s. -/
def containsStr (hay pat : String) : Bool :=
  charsContain hay.data pat.data

/-- One extracted SARIF result: `ruleId`, `level` and `message.text`,
with the extraction defaults (`"unknown"` / `"note"` / `""`) already
applied by the caller. -/
structure SarifResult where
  ruleId : String
  level : String
  message : String
deriving DecidableEq, Repr

/-! ## `ComplianceReportGenerator` (generate-compliance-report.py) -/

/-- One compliance-control citation, as produced by the
`_map_to_iso27001` / `_map_to_rbi_framework` / `_map_to_sebi_guidelines`
methods: `{framework, control, description, severity_impact}`. -/
structure Mapping where
  framework : String
  control : String
  description : String
  severityImpact : String
deriving DecidableEq, Repr

/-- Per-control statistics kept in `findings_by_control`:
`{total_findings, critical_findings, description}`. -/
structure ControlStats where
  totalFindings : Nat
  criticalFindings : Nat
  description : String
deriving DecidableEq, Repr

/-- Per-framework block of `compliance_mappings`:
`{total_controls, failed_controls, compliance_percentage,
findings_by_control}`.  The `findings_by_control` dict is modelled as an
insertion-ordered association list, as Python dicts are. -/
structure FrameworkData where
  totalControls : Nat
  failedControls : Nat
  compliancePercentage : ℚ
  controls : List (String × ControlStats)
deriving DecidableEq, Repr

/-- The `executive_summary` block of the report. -/
structure ExecutiveSummary where
  totalFindings : Nat
  criticalFindings : Nat
  complianceScore : ℚ
  riskLevel : String
deriving DecidableEq, Repr

/-- One record of `detailed_findings`. -/
structure DetailedFinding where
  ruleId : String
  severity : String
  message : String
  complianceMappings : List Mapping
  remediationPriority : String
deriving DecidableEq, Repr

/-- The mutable `self.report` state of `ComplianceReportGenerator`,
restricted to the fields the core logic reads or writes
(`self.standards`, `executive_summary`, `compliance_mappings`,
`detailed_findings`). -/
structure ReportState where
  standards : List String
  executiveSummary : ExecutiveSummary
  complianceMappings : List (String × FrameworkData)
  detailedFindings : List DetailedFinding
deriving DecidableEq, Repr

/-- Python dict assignment `d[k] = v` on an association list. -/
def setAssoc {α : Type} (k : String) (v : α) : List (String × α) → List (String × α)
  | [] => [(k, v)]
  | (k', v') :: t => if k' = k then (k', v) :: t else (k', v') :: setAssoc k v t

/-- Python dict lookup `d.get(k)` on an association list. -/
def getAssoc {α : Type} (k : String) : List (String × α) → Option α
  | [] => none
  | (k', v) :: t => if k' = k then some v else getAssoc k t

/-- The constructor `ComplianceReportGenerator.__init__`: zeroed
executive summary and one fresh block per requested standard. -/
def initReport (standards : List String) : ReportState :=
  { standards := standards
    executiveSummary := ⟨0, 0, 0, "LOW"⟩
    complianceMappings :=
      standards.foldl (fun m s => setAssoc s ⟨0, 0, 100, []⟩ m) []
    detailedFindings := [] }

/-- The test `level in ['error', 'critical']` used in
`_map_finding_to_compliance`, `_update_compliance_stats` and
`_calculate_priority` (applied to the already-lowercased level). -/
def isCriticalLevel (level : String) : Bool :=
  level == "error" || level == "critical"

/-- Method `_calculate_priority(level, rule_id)`; the `rule_id`
argument is accepted but unused, as in the source. -/
def calculatePriority (level : String) (_ruleId : String) : String :=
  if isCriticalLevel level then "HIGH"
  else if level == "warning" then "MEDIUM"
  else "LOW"

/-- Method `_map_to_iso27001`: one citation per matching keyword block,
in source order. -/
def mapToIso27001 (ruleId level : String) : List Mapping :=
  let rl := lowerStr ruleId
  (if (["sql-injection", "xss", "vulnerability"].any fun t => containsStr rl t) then
    [⟨"ISO27001", "A.12.6.1", "Management of technical vulnerabilities", level⟩]
  else []) ++
  (if (["crypto", "encryption", "cipher", "hash"].any fun t => containsStr rl t) then
    [⟨"ISO27001", "A.10.1.1", "Policy on the use of cryptographic controls", level⟩]
  else []) ++
  (if (["auth", "access", "authorization"].any fun t => containsStr rl t) then
    [⟨"ISO27001", "A.9.1.1", "Access control policy", level⟩]
  else [])

/-- Method `_map_to_rbi_framework`. -/
def mapToRbiFramework (ruleId level : String) : List Mapping :=
  let rl := lowerStr ruleId
  (if (["sql-injection", "xss", "injection"].any fun t => containsStr rl t) then
    [⟨"RBI-IT-Framework", "RBI-IT-4.2.1", "Application Security - Secure coding practices", level⟩]
  else []) ++
  (if (["auth", "session", "access"].any fun t => containsStr rl t) then
    [⟨"RBI-IT-Framework", "RBI-IT-4.1.3", "Access Control and Authentication", level⟩]
  else []) ++
  (if (["pii", "personal", "data-protection"].any fun t => containsStr rl t) then
    [⟨"RBI-IT-Framework", "RBI-IT-4.3.3", "Customer Data Protection", level⟩]
  else [])

/-- Method `_map_to_sebi_guidelines`. -/
def mapToSebiGuidelines (ruleId level : String) : List Mapping :=
  let rl := lowerStr ruleId
  (if (["governance", "policy", "procedure"].any fun t => containsStr rl t) then
    [⟨"SEBI-Guidelines", "SEBI-SG-2.1", "System Governance and Risk Management", level⟩]
  else []) ++
  (if (["data-integrity", "validation", "consistency"].any fun t => containsStr rl t) then
    [⟨"SEBI-Guidelines", "SEBI-DI-3.1", "Data Integrity and Validation", level⟩]
  else [])

/-- The per-citation body of `_update_compliance_stats`: insert the
control with zeroed counters if absent (at the end of the dict), then
increment `total_findings`, then increment `critical_findings` when the
level is critical. -/
def bumpControl (level control description : String) :
    List (String × ControlStats) → List (String × ControlStats)
  | [] => [(control, ⟨1, if isCriticalLevel level then 1 else 0, description⟩)]
  | (c, st) :: t =>
    if c = control then
      (c, ⟨st.totalFindings + 1,
           st.criticalFindings + (if isCriticalLevel level then 1 else 0),
           st.description⟩) :: t
    else (c, st) :: bumpControl level control description t

/-- Method `_update_compliance_stats(framework, mappings, level)`:
a no-op when `framework` is not a key of `compliance_mappings`,
otherwise folds `bumpControl` over the mappings of the finding. -/
def updateComplianceStats (framework : String) (mappings : List Mapping)
    (level : String) (outer : List (String × FrameworkData)) :
    List (String × FrameworkData) :=
  outer.map fun p =>
    if p.1 = framework then
      (p.1,
        { p.2 with
          controls := mappings.foldl
            (fun cs m => bumpControl level m.control m.description cs) p.2.controls })
    else p

/-- Method `_map_finding_to_compliance`: lowercase the level, count the
finding as critical when the level is `error` or `critical`, classify it
against each requested framework, update that framework's statistics
when at least one citation was produced, and append the detailed
finding record. -/
def mapFindingToCompliance (s : ReportState) (res : SarifResult) : ReportState :=
  let ruleId := res.ruleId
  let level := lowerStr res.level
  let exec1 :=
    if isCriticalLevel level then
      { s.executiveSummary with criticalFindings := s.executiveSummary.criticalFindings + 1 }
    else s.executiveSummary
  let iso := mapToIso27001 ruleId level
  let rbi := mapToRbiFramework ruleId level
  let sebi := mapToSebiGuidelines ruleId level
  let m1 :=
    if s.standards.contains "ISO27001" && !iso.isEmpty then
      updateComplianceStats "ISO27001" iso level s.complianceMappings
    else s.complianceMappings
  let m2 :=
    if s.standards.contains "RBI-IT-Framework" && !rbi.isEmpty then
      updateComplianceStats "RBI-IT-Framework" rbi level m1
    else m1
  let m3 :=
    if s.standards.contains "SEBI-Guidelines" && !sebi.isEmpty then
      updateComplianceStats "SEBI-Guidelines" sebi level m2
    else m2
  let cites :=
    (if s.standards.contains "ISO27001" then iso else []) ++
    (if s.standards.contains "RBI-IT-Framework" then rbi else []) ++
    (if s.standards.contains "SEBI-Guidelines" then sebi else [])
  { s with
    executiveSummary := exec1
    complianceMappings := m3
    detailedFindings :=
      s.detailedFindings ++ [⟨ruleId, level, res.message, cites, calculatePriority level ruleId⟩] }

/-- One fold step of the aggregation: the `total_findings` increment
contributed by `_process_run` for this result, followed by
`_map_finding_to_compliance`. -/
def foldFinding (s : ReportState) (res : SarifResult) : ReportState :=
  mapFindingToCompliance
    { s with executiveSummary :=
        { s.executiveSummary with totalFindings := s.executiveSummary.totalFindings + 1 } }
    res

/-- Method `_process_run`: add `len(results)` to `total_findings`, then
map each result. -/
def processRun (s : ReportState) (results : List SarifResult) : ReportState :=
  results.foldl mapFindingToCompliance
    { s with executiveSummary :=
        { s.executiveSummary with totalFindings := s.executiveSummary.totalFindings + results.length } }

/-- The per-framework part of `_finalize_report`: recompute
`failed_controls` (controls with at least one critical finding),
`total_controls` (`max(1, len(findings_by_control))`) and
`compliance_percentage = max(0, 100 - failed/total*100)`. -/
def finalizeFramework (fd : FrameworkData) : FrameworkData :=
  let failed := fd.controls.countP fun p => decide (0 < p.2.criticalFindings)
  let total := max 1 fd.controls.length
  { fd with
    failedControls := failed
    totalControls := total
    compliancePercentage := max 0 (100 - ((failed : ℚ) / (total : ℚ)) * 100) }

/-- The `risk_level` block of `_finalize_report`. -/
def riskLevelOf (criticalFindings : Nat) : String :=
  if 5 < criticalFindings then "HIGH"
  else if 0 < criticalFindings then "MEDIUM"
  else "LOW"

/-- Method `_finalize_report`: finalize every framework block, set
`compliance_score` to the mean of the framework percentages (100 when no
framework is configured), and derive `risk_level` from
`critical_findings`. -/
def finalizeReport (s : ReportState) : ReportState :=
  let mappings := s.complianceMappings.map fun p => (p.1, finalizeFramework p.2)
  let score : ℚ :=
    if mappings.isEmpty then 100
    else (mappings.map fun p => p.2.compliancePercentage).sum / (mappings.length : ℚ)
  { s with
    complianceMappings := mappings
    executiveSummary :=
      { s.executiveSummary with
        complianceScore := score
        riskLevel := riskLevelOf s.executiveSummary.criticalFindings } }

/-- The whole aggregation pipeline on a stream of extracted results:
fold every finding into the fresh state, then finalize. -/
def runPipeline (standards : List String) (results : List SarifResult) : ReportState :=
  finalizeReport (results.foldl foldFinding (initReport standards))

/-! ## `SecurityQualityGates` (security-quality-gates.py) -/

/-- One entry of `self.quality_gates`:
`{max_allowed, fail_build, message}`. -/
structure QualityGate where
  maxAllowed : Nat
  failBuild : Bool
  message : String
deriving DecidableEq, Repr

/-- The `self.quality_gates` table, keyed (in dict insertion order) by
`critical`, `high`, `medium`, `low`. -/
structure QualityGatesCfg where
  critical : QualityGate
  high : QualityGate
  medium : QualityGate
  low : QualityGate
deriving DecidableEq, Repr

/-- The constructor defaults of `self.quality_gates`. -/
def defaultQualityGates : QualityGatesCfg :=
  ⟨⟨0, true, "Critical security vulnerabilities must be resolved before deployment"⟩,
   ⟨0, true, "High severity security issues must be addressed"⟩,
   ⟨5, false, "Medium severity issues should be reviewed and scheduled for remediation"⟩,
   ⟨20, false, "Low severity issues should be tracked for future remediation"⟩⟩

/-- One entry of `self.compliance_gates`:
`{min_score, fail_build, message}`. -/
structure ComplianceGate where
  minScore : ℚ
  failBuild : Bool
  message : String
deriving DecidableEq, Repr

/-- The `self.compliance_gates` table of the constructor. -/
def complianceGatesTable : List (String × ComplianceGate) :=
  [("rbi", ⟨90, true, "RBI IT Framework compliance score below minimum threshold"⟩),
   ("sebi", ⟨85, true, "SEBI Guidelines compliance score below minimum threshold"⟩),
   ("iso27001", ⟨80, false, "ISO 27001 compliance score below target"⟩)]

/-- The entry of `found_critical_violations` built by
`check_financial_specific_rules`. -/
structure CriticalRuleHit where
  rule : String
  ruleId : String
  message : String
  level : String
deriving DecidableEq, Repr

/-- A violation record, one constructor per `type` the script emits:
`security_finding`, `compliance_score`, `financial_security_violation`. -/
inductive Violation where
  | securityFinding (severity : String) (count maxAllowed : Nat)
      (failBuild : Bool) (message : String)
  | complianceScore (framework : String) (score minScore : ℚ)
      (failBuild : Bool) (message : String)
  | financialSecurityViolation (violations : List CriticalRuleHit)
      (failBuild : Bool) (message : String)
deriving DecidableEq, Repr

/-- The `type` field of a violation record. -/
def Violation.kind : Violation → String
  | .securityFinding _ _ _ _ _ => "security_finding"
  | .complianceScore _ _ _ _ _ => "compliance_score"
  | .financialSecurityViolation _ _ _ => "financial_security_violation"

/-- The `fail_build` field of a violation record
(`v.get('fail_build', False)`). -/
def Violation.failBuild : Violation → Bool
  | .securityFinding _ _ _ b _ => b
  | .complianceScore _ _ _ b _ => b
  | .financialSecurityViolation _ b _ => b

/-- The `findings` severity counters of `evaluate_sarif_results`. -/
structure SevCounts where
  critical : Nat
  high : Nat
  medium : Nat
  low : Nat
deriving DecidableEq, Repr

/-- The counting loop of `evaluate_sarif_results`: `error` counts as
critical, `warning` as high, `note` as medium, anything else as low
(the level is compared verbatim, without lowercasing). -/
def countFindings (results : List SarifResult) : SevCounts :=
  results.foldl
    (fun c r =>
      if r.level == "error" then { c with critical := c.critical + 1 }
      else if r.level == "warning" then { c with high := c.high + 1 }
      else if r.level == "note" then { c with medium := c.medium + 1 }
      else { c with low := c.low + 1 })
    ⟨0, 0, 0, 0⟩

/-- The gate loop of `evaluate_sarif_results`: one `security_finding`
violation per severity whose count exceeds `max_allowed`, iterated in
the dict order critical, high, medium, low. -/
def evaluateSecurityGates (g : QualityGatesCfg) (f : SevCounts) : List Violation :=
  (if g.critical.maxAllowed < f.critical then
    [.securityFinding "critical" f.critical g.critical.maxAllowed g.critical.failBuild g.critical.message]
  else []) ++
  (if g.high.maxAllowed < f.high then
    [.securityFinding "high" f.high g.high.maxAllowed g.high.failBuild g.high.message]
  else []) ++
  (if g.medium.maxAllowed < f.medium then
    [.securityFinding "medium" f.medium g.medium.maxAllowed g.medium.failBuild g.medium.message]
  else []) ++
  (if g.low.maxAllowed < f.low then
    [.securityFinding "low" f.low g.low.maxAllowed g.low.failBuild g.low.message]
  else [])

/-- The per-framework step of `evaluate_compliance_scores`:
`gate = self.compliance_gates.get(framework, {})` followed by the
defaulted reads `min_score → 0`, `fail_build → False`, and the default
message, emitting a violation exactly when `score < min_score`. -/
def complianceScoreStep (framework : String) (score : ℚ) : List Violation :=
  let gate := getAssoc framework complianceGatesTable
  let minScore := (gate.map ComplianceGate.minScore).getD 0
  let failB := (gate.map ComplianceGate.failBuild).getD false
  let msg := (gate.map ComplianceGate.message).getD
    (framework ++ " compliance score below threshold")
  if score < minScore then
    [.complianceScore framework score minScore failB msg]
  else []

/-- Method `evaluate_compliance_scores`, applied to the already-parsed
`frameworks` mapping (framework name, `score` with its `.get('score', 0)`
default applied). -/
def evaluateComplianceScores (frameworks : List (String × ℚ)) : List Violation :=
  frameworks.foldl (fun acc p => acc ++ complianceScoreStep p.1 p.2) []

/-- The `critical_rules` list of `check_financial_specific_rules`. -/
def criticalRules : List String :=
  ["payment-data-exposure", "weak-transaction-encryption", "pii-exposure",
   "rbi-data-localization"]

/-- The nested matching loops of `check_financial_specific_rules`: for
every result and every critical rule whose pattern occurs in the
lowercased `ruleId`, record a hit. -/
def foundCriticalViolations (results : List SarifResult) : List CriticalRuleHit :=
  results.flatMap fun res =>
    criticalRules.filterMap fun cr =>
      if containsStr (lowerStr res.ruleId) cr then
        some ⟨cr, res.ruleId, res.message, res.level⟩
      else none

/-- Method `check_financial_specific_rules`: if any hit was found, a
single aggregated violation with `fail_build = True`; otherwise no
violation. -/
def checkFinancialSpecificRules (results : List SarifResult) : List Violation :=
  let found := foundCriticalViolations results
  if !found.isEmpty then
    [.financialSecurityViolation found true "Critical financial security violations found"]
  else []

/-- The report produced by `generate_quality_gate_report`. -/
structure QGReport where
  qualityGateStatus : String
  timestamp : String
  findingsSummary : SevCounts
  violations : List Violation
  buildDecision : String
deriving DecidableEq, Repr

/-- Method `generate_quality_gate_report`: start from `PASS`/`PASS`;
if any violation has `fail_build`, both status and decision become
`FAIL`; otherwise, if there is any violation, the status becomes
`WARNING` while the build decision stays `PASS`. -/
def generateQualityGateReport (findings : SevCounts) (allViolations : List Violation) : QGReport :=
  let failBuildViolations := allViolations.filter fun v => v.failBuild
  if !failBuildViolations.isEmpty then
    ⟨"FAIL", "2024-06-30T12:00:00Z", findings, allViolations, "FAIL"⟩
  else if !allViolations.isEmpty then
    ⟨"WARNING", "2024-06-30T12:00:00Z", findings, allViolations, "PASS"⟩
  else
    ⟨"PASS", "2024-06-30T12:00:00Z", findings, allViolations, "PASS"⟩

/-! ## `SARIFProcessor` (process-sarif.py) -/

/-- The `self.rbi_mappings` pattern table (dict insertion order). -/
def sarifRbiMappings : List (String × String) :=
  [("sql-injection", "RBI-IT-4.2.1"),
   ("weak-cryptographic-algorithm", "RBI-IT-4.3.2"),
   ("hardcoded-credentials", "RBI-IT-4.1.3"),
   ("sensitive-data-exposure", "RBI-IT-4.3.1"),
   ("payment-data-exposure", "RBI-IT-4.3.3")]

/-- The record returned by `get_rbi_mapping` on a match. -/
structure SarifControlMapping where
  control : String
  description : String
  category : String
deriving DecidableEq, Repr

/-- The scanning loop of `get_rbi_mapping`: return on the first pattern
contained in the lowercased rule id. -/
def firstRbiMatch (ruleLower : String) : List (String × String) → Option SarifControlMapping
  | [] => none
  | (pat, m) :: t =>
    if containsStr ruleLower pat then
      some ⟨m, "RBI IT Framework control " ++ m, "Information Security"⟩
    else firstRbiMatch ruleLower t

/-- Method `SARIFProcessor.get_rbi_mapping`. -/
def getRbiMapping (ruleId : String) : Option SarifControlMapping :=
  firstRbiMatch (lowerStr ruleId) sarifRbiMappings

/-! ## Infrastructure: association-list lemmas for the aggregation -/

/-- Combined effect of one `bumpControl` step on the looked-up value of
the bumped control. -/
def bumpStats (level description : String) : Option ControlStats → ControlStats
  | none => ⟨1, if isCriticalLevel level then 1 else 0, description⟩
  | some st =>
    ⟨st.totalFindings + 1,
     st.criticalFindings + (if isCriticalLevel level then 1 else 0),
     st.description⟩

lemma getAssoc_bumpControl (lvl ctl d : String) (cs : List (String × ControlStats)) (k : String) :
    getAssoc k (bumpControl lvl ctl d cs) =
      if k = ctl then some (bumpStats lvl d (getAssoc k cs)) else getAssoc k cs := by
  induction cs with
  | nil =>
    by_cases h : k = ctl
    · subst h; simp [bumpControl, getAssoc, bumpStats]
    · simp [bumpControl, getAssoc, h, Ne.symm h]
  | cons p t ih =>
    obtain ⟨c, st⟩ := p
    by_cases hc : c = ctl
    · subst hc
      by_cases hk : k = c
      · subst hk; simp [bumpControl, getAssoc, bumpStats]
      · simp [bumpControl, getAssoc, hk, Ne.symm hk]
    · by_cases hk : c = k
      · subst hk
        have : ¬ c = ctl := hc
        simp [bumpControl, getAssoc, hc, this]
      · simp [bumpControl, getAssoc, hc, hk, ih]

lemma keys_bumpControl (lvl ctl d : String) (cs : List (String × ControlStats)) :
    (bumpControl lvl ctl d cs).map Prod.fst =
      if ctl ∈ cs.map Prod.fst then cs.map Prod.fst else cs.map Prod.fst ++ [ctl] := by
  induction cs with
  | nil => simp [bumpControl]
  | cons p t ih =>
    obtain ⟨c, st⟩ := p
    by_cases hc : c = ctl
    · subst hc; simp [bumpControl]
    · simp [bumpControl, hc, ih, Ne.symm hc]
      by_cases hmem : ctl ∈ t.map Prod.fst <;> simp [hmem, Ne.symm hc]

lemma getAssoc_eq_none_iff {α : Type} (k : String) (cs : List (String × α)) :
    getAssoc k cs = none ↔ k ∉ cs.map Prod.fst := by
  induction cs with
  | nil => simp [getAssoc]
  | cons p t ih =>
    obtain ⟨c, v⟩ := p
    by_cases hc : c = k
    · subst hc; simp [getAssoc]
    · simp [getAssoc, hc, ih, Ne.symm hc]

lemma nodupKeys_bumpControl (lvl ctl d : String) (cs : List (String × ControlStats))
    (h : (cs.map Prod.fst).Nodup) :
    ((bumpControl lvl ctl d cs).map Prod.fst).Nodup := by
  rw [keys_bumpControl]
  by_cases hmem : ctl ∈ cs.map Prod.fst
  · simpa [hmem] using h
  · simp only [hmem, if_false]
    rw [List.nodup_append]
    exact ⟨h, List.nodup_singleton ctl, by simpa using hmem⟩

lemma getAssoc_eq_some_mem {α : Type} {k : String} {v : α} {cs : List (String × α)}
    (h : getAssoc k cs = some v) : (k, v) ∈ cs := by
  induction cs with
  | nil => simp [getAssoc] at h
  | cons p t ih =>
    obtain ⟨c, w⟩ := p
    by_cases hc : c = k
    · subst hc
      simp [getAssoc] at h
      simp [h]
    · simp [getAssoc, hc] at h
      simp [ih h]

lemma mem_iff_getAssoc {α : Type} {k : String} {v : α} {cs : List (String × α)}
    (h : (cs.map Prod.fst).Nodup) : (k, v) ∈ cs ↔ getAssoc k cs = some v := by
  induction cs with
  | nil => simp [getAssoc]
  | cons p t ih =>
    obtain ⟨c, w⟩ := p
    simp only [List.map_cons, List.nodup_cons] at h
    by_cases hc : c = k
    · subst hc
      simp only [getAssoc, if_pos rfl, List.mem_cons]
      constructor
      · rintro (h' | h')
        · simp [Prod.mk.injEq] at h'
          simp [h']
        · exact absurd (List.mem_map_of_mem Prod.fst h') (by simpa using h.1)
      · rintro h'
        simp at h'
        simp [h']
    · simp only [getAssoc, if_neg hc, List.mem_cons]
      rw [ih h.2]
      constructor
      · rintro (h' | h')
        · exact absurd (congrArg Prod.fst h').symm hc
        · exact h'
      · exact fun h' => Or.inr h'

/-- Lookup-level equality of two association lists of control stats. -/
def LookupEq (cs1 cs2 : List (String × ControlStats)) : Prop :=
  ∀ k, getAssoc k cs1 = getAssoc k cs2

lemma perm_of_lookupEq {cs1 cs2 : List (String × ControlStats)}
    (h1 : (cs1.map Prod.fst).Nodup) (h2 : (cs2.map Prod.fst).Nodup)
    (h : LookupEq cs1 cs2) : cs1.Perm cs2 := by
  refine (List.perm_ext_iff_of_nodup (h1.of_map _) (h2.of_map _)).2 ?_
  rintro ⟨k, v⟩
  rw [mem_iff_getAssoc h1, mem_iff_getAssoc h2, h k]

/-- Folding a list of `(control, description)` bumps into the
`findings_by_control` association list; this is the loop body of
`_update_compliance_stats` with the citation projected to the two
fields it reads. -/
def foldBumps (lvl : String) (L : List (String × String))
    (cs : List (String × ControlStats)) : List (String × ControlStats) :=
  L.foldl (fun cs cd => bumpControl lvl cd.1 cd.2 cs) cs

lemma lookupEq_bumpControl {cs1 cs2 : List (String × ControlStats)}
    (h : LookupEq cs1 cs2) (lvl ctl d : String) :
    LookupEq (bumpControl lvl ctl d cs1) (bumpControl lvl ctl d cs2) := by
  intro k
  rw [getAssoc_bumpControl, getAssoc_bumpControl, h k]

lemma lookupEq_foldBumps {cs1 cs2 : List (String × ControlStats)}
    (h : LookupEq cs1 cs2) (lvl : String) (L : List (String × String)) :
    LookupEq (foldBumps lvl L cs1) (foldBumps lvl L cs2) := by
  induction L generalizing cs1 cs2 with
  | nil => exact h
  | cons cd t ih => exact ih (lookupEq_bumpControl h lvl cd.1 cd.2)

lemma lookupEq_refl (cs : List (String × ControlStats)) : LookupEq cs cs :=
  fun _ => rfl

lemma lookupEq_trans {cs1 cs2 cs3 : List (String × ControlStats)}
    (h1 : LookupEq cs1 cs2) (h2 : LookupEq cs2 cs3) : LookupEq cs1 cs3 :=
  fun k => (h1 k).trans (h2 k)

lemma bump_bump_comm (l1 l2 ctl1 ctl2 d1 d2 : String)
    (cs : List (String × ControlStats)) (hd : ctl1 = ctl2 → d1 = d2) :
    LookupEq (bumpControl l2 ctl2 d2 (bumpControl l1 ctl1 d1 cs))
      (bumpControl l1 ctl1 d1 (bumpControl l2 ctl2 d2 cs)) := by
  intro k
  simp only [getAssoc_bumpControl]
  by_cases h1 : k = ctl1 <;> by_cases h2 : k = ctl2
  · subst h1
    subst h2
    have hdd : d1 = d2 := hd rfl
    cases hx : getAssoc k cs <;> simp [bumpStats, hdd, hx] <;> omega
  · subst h1
    simp [h2]
  · subst h2
    simp [h1]
  · simp [h1, h2]

lemma bump_foldBumps_comm (l l' ctl d : String) (L : List (String × String))
    (cs : List (String × ControlStats))
    (hd : ∀ cd ∈ L, ctl = cd.1 → d = cd.2) :
    LookupEq (bumpControl l ctl d (foldBumps l' L cs))
      (foldBumps l' L (bumpControl l ctl d cs)) := by
  induction L generalizing cs with
  | nil => exact lookupEq_refl _
  | cons cd t ih =>
    have step1 :
        LookupEq (bumpControl l ctl d (foldBumps l' t (bumpControl l' cd.1 cd.2 cs)))
          (foldBumps l' t (bumpControl l ctl d (bumpControl l' cd.1 cd.2 cs))) :=
      ih _ (fun cd' h' => hd cd' (List.mem_cons_of_mem _ h'))
    have step2 :
        LookupEq (bumpControl l ctl d (bumpControl l' cd.1 cd.2 cs))
          (bumpControl l' cd.1 cd.2 (bumpControl l ctl d cs)) :=
      bump_bump_comm l' l cd.1 ctl cd.2 d cs
        (fun h' => (hd cd (List.mem_cons_self _ _) h'.symm).symm)
    exact lookupEq_trans step1 (lookupEq_foldBumps step2 l' t)

/-- Cross-compatibility of two bump lists: equal controls carry equal
descriptions. -/
def CompatBumps (L1 L2 : List (String × String)) : Prop :=
  ∀ cd ∈ L1, ∀ cd' ∈ L2, cd.1 = cd'.1 → cd.2 = cd'.2

lemma foldBumps_foldBumps_comm (l1 l2 : String) (L1 L2 : List (String × String))
    (cs : List (String × ControlStats)) (hc : CompatBumps L1 L2) :
    LookupEq (foldBumps l2 L2 (foldBumps l1 L1 cs))
      (foldBumps l1 L1 (foldBumps l2 L2 cs)) := by
  induction L1 generalizing cs with
  | nil => exact lookupEq_refl _
  | cons cd t ih =>
    show LookupEq (foldBumps l2 L2 (foldBumps l1 t (bumpControl l1 cd.1 cd.2 cs)))
      (foldBumps l1 t (bumpControl l1 cd.1 cd.2 (foldBumps l2 L2 cs)))
    have step1 :
        LookupEq (foldBumps l2 L2 (foldBumps l1 t (bumpControl l1 cd.1 cd.2 cs)))
          (foldBumps l1 t (foldBumps l2 L2 (bumpControl l1 cd.1 cd.2 cs))) :=
      ih _ (fun cd' h' => hc cd' (List.mem_cons_of_mem _ h'))
    have step2 :
        LookupEq (bumpControl l1 cd.1 cd.2 (foldBumps l2 L2 cs))
          (foldBumps l2 L2 (bumpControl l1 cd.1 cd.2 cs)) :=
      bump_foldBumps_comm l1 l2 cd.1 cd.2 L2 cs
        (fun cd' h' he => hc cd (List.mem_cons_self _ _) cd' h' he)
    exact lookupEq_trans step1
      ((lookupEq_foldBumps (fun k => (step2 k).symm) l1 t))

lemma nodupKeys_foldBumps (lvl : String) (L : List (String × String))
    {cs : List (String × ControlStats)} (h : (cs.map Prod.fst).Nodup) :
    ((foldBumps lvl L cs).map Prod.fst).Nodup := by
  induction L generalizing cs with
  | nil => exact h
  | cons cd t ih => exact ih (nodupKeys_bumpControl lvl cd.1 cd.2 cs h)

/-- The two fields of a citation read by `_update_compliance_stats`. -/
def cdOf (m : Mapping) : String × String :=
  (m.control, m.description)

/-- The `(control, description)` bumps that citation lists `iso`, `rbi`
and `sebi` contribute to the framework block keyed `k`, gated exactly
as in `_map_finding_to_compliance`. -/
def bumpsForLists (standards : List String) (iso rbi sebi : List Mapping)
    (k : String) : List (String × String) :=
  (if (standards.contains "ISO27001" && !iso.isEmpty) && (k == "ISO27001") then
    iso.map cdOf
  else []) ++
  (if (standards.contains "RBI-IT-Framework" && !rbi.isEmpty) && (k == "RBI-IT-Framework") then
    rbi.map cdOf
  else []) ++
  (if (standards.contains "SEBI-Guidelines" && !sebi.isEmpty) && (k == "SEBI-Guidelines") then
    sebi.map cdOf
  else [])

/-- The `(control, description)` bumps a finding contributes to the
framework block keyed `k`. -/
def bumpsFor (standards : List String) (res : SarifResult) (k : String) :
    List (String × String) :=
  bumpsForLists standards
    (mapToIso27001 res.ruleId (lowerStr res.level))
    (mapToRbiFramework res.ruleId (lowerStr res.level))
    (mapToSebiGuidelines res.ruleId (lowerStr res.level)) k

/-- The effect of one finding on one framework block. -/
def applyFrameworkBumps (standards : List String) (res : SarifResult)
    (k : String) (fd : FrameworkData) : FrameworkData :=
  { fd with controls := foldBumps (lowerStr res.level) (bumpsFor standards res k) fd.controls }

lemma updateComplianceStats_eq_map (fw : String) (ms : List Mapping) (lvl : String)
    (outer : List (String × FrameworkData)) :
    updateComplianceStats fw ms lvl outer =
      outer.map fun p =>
        (p.1, if p.1 == fw then
          { p.2 with controls := foldBumps lvl (ms.map cdOf) p.2.controls }
        else p.2) := by
  unfold updateComplianceStats
  refine List.map_congr_left fun p _ => ?_
  by_cases hp : p.1 = fw
  · simp [hp, foldBumps, List.foldl_map, cdOf]
  · simp [hp]

lemma ite_map {α : Type} {G : Prop} [Decidable G] (l : List α) (f : α → α) :
    (if G then l.map f else l) = l.map (fun a => if G then f a else a) := by
  by_cases hG : G <;> simp [hG]

lemma foldBumps_append (lvl : String) (A B : List (String × String))
    (cs : List (String × ControlStats)) :
    foldBumps lvl (A ++ B) cs = foldBumps lvl B (foldBumps lvl A cs) :=
  List.foldl_append ..

lemma stage_chain (std : List String) (lvl : String) (iso rbi sebi : List Mapping)
    (M : List (String × FrameworkData)) :
    (let m1 := if std.contains "ISO27001" && !iso.isEmpty then
        updateComplianceStats "ISO27001" iso lvl M else M
     let m2 := if std.contains "RBI-IT-Framework" && !rbi.isEmpty then
        updateComplianceStats "RBI-IT-Framework" rbi lvl m1 else m1
     if std.contains "SEBI-Guidelines" && !sebi.isEmpty then
        updateComplianceStats "SEBI-Guidelines" sebi lvl m2 else m2) =
      M.map fun p =>
        (p.1,
          { p.2 with
            controls := foldBumps lvl (bumpsForLists std iso rbi sebi p.1) p.2.controls }) := by
  simp only [updateComplianceStats_eq_map]
  simp only [ite_map]
  simp only [List.map_map]
  refine List.map_congr_left fun p _ => ?_
  simp only [Function.comp, bumpsForLists, foldBumps_append]
  cases hG1 : (std.contains "ISO27001" && !iso.isEmpty) <;>
  cases hG2 : (std.contains "RBI-IT-Framework" && !rbi.isEmpty) <;>
  cases hG3 : (std.contains "SEBI-Guidelines" && !sebi.isEmpty) <;>
  cases hk1 : (p.1 == "ISO27001") <;>
  cases hk2 : (p.1 == "RBI-IT-Framework") <;>
  cases hk3 : (p.1 == "SEBI-Guidelines") <;>
  simp only [hG1, hG2, hG3, hk1, hk2, hk3, Bool.false_eq_true, if_false, if_true,
    Bool.true_eq_false, foldBumps] <;>
  rfl

lemma mappings_mapFinding (s : ReportState) (res : SarifResult) :
    (mapFindingToCompliance s res).complianceMappings =
      s.complianceMappings.map fun p =>
        (p.1, applyFrameworkBumps s.standards res p.1 p.2) := by
  have h := stage_chain s.standards (lowerStr res.level)
    (mapToIso27001 res.ruleId (lowerStr res.level))
    (mapToRbiFramework res.ruleId (lowerStr res.level))
    (mapToSebiGuidelines res.ruleId (lowerStr res.level))
    s.complianceMappings
  simpa [mapFindingToCompliance, applyFrameworkBumps, bumpsFor] using h

lemma cd_mapToIso (r l : String) :
    ∀ cd ∈ (mapToIso27001 r l).map cdOf,
      cd = ("A.12.6.1", "Management of technical vulnerabilities") ∨
      cd = ("A.10.1.1", "Policy on the use of cryptographic controls") ∨
      cd = ("A.9.1.1", "Access control policy") := by
  intro cd hcd
  simp only [mapToIso27001, List.map_append, List.mem_append] at hcd
  rcases hcd with (h | h) | h <;> split at h <;> simp_all [cdOf]

lemma cd_mapToRbi (r l : String) :
    ∀ cd ∈ (mapToRbiFramework r l).map cdOf,
      cd = ("RBI-IT-4.2.1", "Application Security - Secure coding practices") ∨
      cd = ("RBI-IT-4.1.3", "Access Control and Authentication") ∨
      cd = ("RBI-IT-4.3.3", "Customer Data Protection") := by
  intro cd hcd
  simp only [mapToRbiFramework, List.map_append, List.mem_append] at hcd
  rcases hcd with (h | h) | h <;> split at h <;> simp_all [cdOf]

lemma cd_mapToSebi (r l : String) :
    ∀ cd ∈ (mapToSebiGuidelines r l).map cdOf,
      cd = ("SEBI-SG-2.1", "System Governance and Risk Management") ∨
      cd = ("SEBI-DI-3.1", "Data Integrity and Validation") := by
  intro cd hcd
  simp only [mapToSebiGuidelines, List.map_append, List.mem_append] at hcd
  rcases hcd with h | h <;> split at h <;> simp_all [cdOf]

lemma compat_iso (r l r' l' : String) :
    CompatBumps ((mapToIso27001 r l).map cdOf) ((mapToIso27001 r' l').map cdOf) := by
  intro cd h1 cd' h2 he
  rcases cd_mapToIso r l cd h1 with h | h | h <;>
    rcases cd_mapToIso r' l' cd' h2 with h' | h' | h' <;>
    subst h <;> subst h' <;> first | rfl | exact absurd he (by decide)

lemma compat_rbi (r l r' l' : String) :
    CompatBumps ((mapToRbiFramework r l).map cdOf) ((mapToRbiFramework r' l').map cdOf) := by
  intro cd h1 cd' h2 he
  rcases cd_mapToRbi r l cd h1 with h | h | h <;>
    rcases cd_mapToRbi r' l' cd' h2 with h' | h' | h' <;>
    subst h <;> subst h' <;> first | rfl | exact absurd he (by decide)

lemma compat_sebi (r l r' l' : String) :
    CompatBumps ((mapToSebiGuidelines r l).map cdOf) ((mapToSebiGuidelines r' l').map cdOf) := by
  intro cd h1 cd' h2 he
  rcases cd_mapToSebi r l cd h1 with h | h <;>
    rcases cd_mapToSebi r' l' cd' h2 with h' | h' <;>
    subst h <;> subst h' <;> first | rfl | exact absurd he (by decide)

lemma mem_guard_comp {cd : String × String} {G : Bool} {k name : String}
    {L : List (String × String)} (h : cd ∈ if G && (k == name) then L else []) :
    k = name ∧ cd ∈ L := by
  split at h
  · rename_i hc
    rw [Bool.and_eq_true] at hc
    exact ⟨by simpa using hc.2, h⟩
  · simp at h

lemma compat_bumpsFor (std : List String) (a b : SarifResult) (k : String) :
    CompatBumps (bumpsFor std a k) (bumpsFor std b k) := by
  intro cd h1 cd' h2 he
  unfold bumpsFor bumpsForLists at h1 h2
  simp only [List.mem_append] at h1 h2
  rcases h1 with (h1 | h1) | h1 <;> rcases h2 with (h2 | h2) | h2 <;>
    obtain ⟨hk1, hm1⟩ := mem_guard_comp h1 <;>
    obtain ⟨hk2, hm2⟩ := mem_guard_comp h2 <;>
    first
      | exact compat_iso _ _ _ _ cd hm1 cd' hm2 he
      | exact compat_rbi _ _ _ _ cd hm1 cd' hm2 he
      | exact compat_sebi _ _ _ _ cd hm1 cd' hm2 he
      | exact absurd (hk1.symm.trans hk2) (by decide)

lemma applyBumps_lookupEq (std : List String) (a b : SarifResult) (k : String)
    (fd : FrameworkData) :
    LookupEq (applyFrameworkBumps std b k (applyFrameworkBumps std a k fd)).controls
      (applyFrameworkBumps std a k (applyFrameworkBumps std b k fd)).controls :=
  foldBumps_foldBumps_comm (lowerStr a.level) (lowerStr b.level)
    (bumpsFor std a k) (bumpsFor std b k) fd.controls (compat_bumpsFor std a b k)

lemma applyBumps_nodup (std : List String) (res : SarifResult) (k : String)
    {fd : FrameworkData} (h : (fd.controls.map Prod.fst).Nodup) :
    (((applyFrameworkBumps std res k fd).controls.map Prod.fst)).Nodup :=
  nodupKeys_foldBumps _ _ h

lemma applyBumps_perm (std : List String) (a b : SarifResult) (k : String)
    {fd : FrameworkData} (hnd : (fd.controls.map Prod.fst).Nodup) :
    (applyFrameworkBumps std b k (applyFrameworkBumps std a k fd)).controls.Perm
      (applyFrameworkBumps std a k (applyFrameworkBumps std b k fd)).controls :=
  perm_of_lookupEq
    (applyBumps_nodup std b k (applyBumps_nodup std a k hnd))
    (applyBumps_nodup std a k (applyBumps_nodup std b k hnd))
    (applyBumps_lookupEq std a b k fd)

lemma finalize_proj_of_perm {fd1 fd2 : FrameworkData}
    (h : fd1.controls.Perm fd2.controls) :
    (finalizeFramework fd1).failedControls = (finalizeFramework fd2).failedControls ∧
    (finalizeFramework fd1).totalControls = (finalizeFramework fd2).totalControls ∧
    (finalizeFramework fd1).compliancePercentage = (finalizeFramework fd2).compliancePercentage := by
  have h1 := h.countP_eq fun p => decide (0 < p.2.criticalFindings)
  have h2 := h.length_eq
  simp [finalizeFramework, h1, h2]

lemma getAssoc_map_keyed {β : Type} (g : String → β → β) (M : List (String × β)) (k : String) :
    getAssoc k (M.map fun p => (p.1, g p.1 p.2)) = (getAssoc k M).map (g k) := by
  induction M with
  | nil => rfl
  | cons p t ih =>
    obtain ⟨c, v⟩ := p
    by_cases hc : c = k
    · subst hc; simp [getAssoc]
    · simp [getAssoc, hc, ih]

lemma standards_foldFinding (s : ReportState) (res : SarifResult) :
    (foldFinding s res).standards = s.standards := rfl

lemma mappings_foldFinding (s : ReportState) (res : SarifResult) :
    (foldFinding s res).complianceMappings =
      s.complianceMappings.map fun p =>
        (p.1, applyFrameworkBumps s.standards res p.1 p.2) :=
  mappings_mapFinding _ res

lemma exec_foldFinding (s : ReportState) (res : SarifResult) :
    (foldFinding s res).executiveSummary =
      ⟨s.executiveSummary.totalFindings + 1,
       s.executiveSummary.criticalFindings +
         (if isCriticalLevel (lowerStr res.level) then 1 else 0),
       s.executiveSummary.complianceScore,
       s.executiveSummary.riskLevel⟩ := by
  unfold foldFinding mapFindingToCompliance
  by_cases h : isCriticalLevel (lowerStr res.level) = true <;> simp [h]

lemma mappings_finalizeReport (s : ReportState) :
    (finalizeReport s).complianceMappings =
      s.complianceMappings.map fun p => (p.1, finalizeFramework p.2) := rfl

lemma exec_finalizeReport (s : ReportState) :
    (finalizeReport s).executiveSummary =
      ⟨s.executiveSummary.totalFindings,
       s.executiveSummary.criticalFindings,
       if s.complianceMappings.isEmpty then (100 : ℚ)
       else ((s.complianceMappings.map fun p =>
               (finalizeFramework p.2).compliancePercentage).sum /
             (s.complianceMappings.length : ℚ)),
       riskLevelOf s.executiveSummary.criticalFindings⟩ := by
  unfold finalizeReport
  by_cases h : s.complianceMappings = []
  · simp [h]
  · simp [h, List.isEmpty_iff, List.map_map, Function.comp_def]

/-- Folding two findings into a state and finalizing. -/
def foldTwice (s : ReportState) (a b : SarifResult) : ReportState :=
  finalizeReport (foldFinding (foldFinding s a) b)

lemma mappings_foldTwice (s : ReportState) (a b : SarifResult) :
    (foldTwice s a b).complianceMappings =
      ((s.complianceMappings.map fun p =>
          (p.1, applyFrameworkBumps s.standards a p.1 p.2)).map fun p =>
          (p.1, applyFrameworkBumps s.standards b p.1 p.2)).map fun p =>
          (p.1, finalizeFramework p.2) := by
  unfold foldTwice
  rw [mappings_finalizeReport, mappings_foldFinding, mappings_foldFinding]
  rfl

lemma getAssoc_foldTwice (s : ReportState) (a b : SarifResult) (fw : String) :
    getAssoc fw (foldTwice s a b).complianceMappings =
      ((getAssoc fw s.complianceMappings).map
        (fun fd => applyFrameworkBumps s.standards b fw
          (applyFrameworkBumps s.standards a fw fd))).map finalizeFramework := by
  rw [mappings_foldTwice, getAssoc_map_keyed (fun _ fd => finalizeFramework fd),
    getAssoc_map_keyed (applyFrameworkBumps s.standards b),
    getAssoc_map_keyed (applyFrameworkBumps s.standards a)]
  cases getAssoc fw s.complianceMappings <;> rfl

lemma score_map_foldTwice (s : ReportState) (a b : SarifResult)
    (hwf : ∀ p ∈ s.complianceMappings, (p.2.controls.map Prod.fst).Nodup) :
    ((foldTwice s a b).complianceMappings.map fun p => p.2.compliancePercentage) =
      ((foldTwice s b a).complianceMappings.map fun p => p.2.compliancePercentage) := by
  rw [mappings_foldTwice, mappings_foldTwice]
  simp only [List.map_map]
  refine List.map_congr_left fun p hp => ?_
  have hperm := applyBumps_perm s.standards a b p.1 (hwf p hp)
  simpa [Function.comp_def] using (finalize_proj_of_perm hperm).2.2

lemma exec_foldTwice (s : ReportState) (a b : SarifResult) :
    (foldTwice s a b).executiveSummary =
      ⟨s.executiveSummary.totalFindings + 1 + 1,
       s.executiveSummary.criticalFindings +
         (if isCriticalLevel (lowerStr a.level) then 1 else 0) +
         (if isCriticalLevel (lowerStr b.level) then 1 else 0),
       if (foldTwice s a b).complianceMappings.isEmpty then (100 : ℚ)
       else (((foldTwice s a b).complianceMappings.map fun p =>
               p.2.compliancePercentage).sum /
             ((foldTwice s a b).complianceMappings.length : ℚ)),
       riskLevelOf (s.executiveSummary.criticalFindings +
         (if isCriticalLevel (lowerStr a.level) then 1 else 0) +
         (if isCriticalLevel (lowerStr b.level) then 1 else 0))⟩ := by
  unfold foldTwice
  rw [exec_finalizeReport, exec_foldFinding, exec_foldFinding]
  have hmaps : (finalizeReport (foldFinding (foldFinding s a) b)).complianceMappings =
      ((foldFinding (foldFinding s a) b).complianceMappings.map fun p =>
        (p.1, finalizeFramework p.2)) := mappings_finalizeReport _
  simp only [hmaps, List.isEmpty_eq_true, List.map_eq_nil_iff, List.length_map,
    List.map_map, Function.comp_def]

lemma length_mappings_foldTwice (s : ReportState) (a b : SarifResult) :
    (foldTwice s a b).complianceMappings.length = s.complianceMappings.length := by
  rw [mappings_foldTwice]; simp

lemma setAssoc_values {α : Type} (v : α) (k : String) (m : List (String × α))
    (h : ∀ p ∈ m, p.2 = v) : ∀ p ∈ setAssoc k v m, p.2 = v := by
  induction m with
  | nil => intro p hp; simp [setAssoc] at hp; simp [hp]
  | cons q t ih =>
    intro p hp
    obtain ⟨c, w⟩ := q
    by_cases hc : c = k
    · simp [setAssoc, hc] at hp
      rcases hp with hp | hp
      · simp [hp]
      · exact h p (List.mem_cons_of_mem _ hp)
    · simp [setAssoc, hc] at hp
      rcases hp with hp | hp
      · subst hp; exact h (c, w) (List.mem_cons_self _ _)
      · exact ih (fun q hq => h q (List.mem_cons_of_mem _ hq)) p hp

lemma init_mappings_values (standards : List String) :
    ∀ p ∈ (initReport standards).complianceMappings,
      p.2 = (⟨0, 0, 100, []⟩ : FrameworkData) := by
  show ∀ p ∈ standards.foldl (fun m s => setAssoc s ⟨0, 0, 100, []⟩ m) [],
    p.2 = (⟨0, 0, 100, []⟩ : FrameworkData)
  have master : ∀ (l : List String) (m : List (String × FrameworkData)),
      (∀ p ∈ m, p.2 = (⟨0, 0, 100, []⟩ : FrameworkData)) →
      ∀ p ∈ l.foldl (fun m s => setAssoc s ⟨0, 0, 100, []⟩ m) m,
        p.2 = (⟨0, 0, 100, []⟩ : FrameworkData) := by
    intro l
    induction l with
    | nil => intro m hm; exact hm
    | cons x t ih =>
      intro m hm
      exact ih _ (setAssoc_values _ x m hm)
  exact master standards [] (by simp)

lemma wf_foldFinding (s : ReportState) (res : SarifResult)
    (hwf : ∀ p ∈ s.complianceMappings, (p.2.controls.map Prod.fst).Nodup) :
    ∀ p ∈ (foldFinding s res).complianceMappings,
      (p.2.controls.map Prod.fst).Nodup := by
  rw [mappings_foldFinding]
  intro p hp
  rcases List.mem_map.mp hp with ⟨q, hq, rfl⟩
  exact applyBumps_nodup s.standards res q.1 (hwf q hq)

lemma standards_foldl (results : List SarifResult) (s : ReportState) :
    (results.foldl foldFinding s).standards = s.standards := by
  induction results generalizing s with
  | nil => rfl
  | cons r t ih => exact (ih (foldFinding s r)).trans rfl

lemma wf_foldl (results : List SarifResult) (s : ReportState)
    (hwf : ∀ p ∈ s.complianceMappings, (p.2.controls.map Prod.fst).Nodup) :
    ∀ p ∈ (results.foldl foldFinding s).complianceMappings,
      (p.2.controls.map Prod.fst).Nodup := by
  induction results generalizing s with
  | nil => exact hwf
  | cons r t ih => exact ih (foldFinding s r) (wf_foldFinding s r hwf)

lemma wf_init (standards : List String) :
    ∀ p ∈ (initReport standards).complianceMappings,
      (p.2.controls.map Prod.fst).Nodup := by
  intro p hp
  rw [init_mappings_values standards p hp]
  exact List.nodup_nil

lemma finalizeFramework_spec (fd : FrameworkData) :
    0 ≤ (finalizeFramework fd).compliancePercentage ∧
    (finalizeFramework fd).compliancePercentage ≤ 100 ∧
    (finalizeFramework fd).compliancePercentage =
      max 0 (100 - ((finalizeFramework fd).failedControls : ℚ) /
        ((finalizeFramework fd).totalControls : ℚ) * 100) ∧
    (finalizeFramework fd).totalControls = max 1 (finalizeFramework fd).controls.length ∧
    (finalizeFramework fd).failedControls =
      (finalizeFramework fd).controls.countP (fun p => decide (0 < p.2.criticalFindings)) ∧
    ((finalizeFramework fd).controls = [] →
      (finalizeFramework fd).compliancePercentage = 100) := by
  have hnn : (0 : ℚ) ≤
      ((fd.controls.countP fun p => decide (0 < p.2.criticalFindings) : ℚ) /
        ((max 1 fd.controls.length : ℕ) : ℚ)) * 100 := by
    positivity
  refine ⟨le_max_left _ _, ?_, rfl, rfl, rfl, ?_⟩
  · exact max_le (by norm_num) (by linarith)
  · intro hnil
    simp only [finalizeFramework] at hnil ⊢
    simp [hnil]

lemma sum_map_const100 {α : Type} (f : α → ℚ) (l : List α)
    (h : ∀ x ∈ l, f x = 100) : (l.map f).sum = 100 * l.length := by
  induction l with
  | nil => simp
  | cons x t ih =>
    simp only [List.map_cons, List.sum_cons, List.length_cons,
      h x (List.mem_cons_self _ _), ih fun y hy => h y (List.mem_cons_of_mem _ hy)]
    push_cast
    ring

lemma exec_runPipeline_nil (standards : List String) :
    (runPipeline standards []).executiveSummary = ⟨0, 0, 100, "LOW"⟩ := by
  show (finalizeReport (initReport standards)).executiveSummary = ⟨0, 0, 100, "LOW"⟩
  rw [exec_finalizeReport]
  by_cases hM : (initReport standards).complianceMappings = []
  · simp only [hM, List.isEmpty_nil, if_true]
    rfl
  · have hpct : ∀ p ∈ (initReport standards).complianceMappings,
        (finalizeFramework p.2).compliancePercentage = 100 := by
      intro p hp
      rw [init_mappings_values standards p hp]
      norm_num [finalizeFramework]
    have hsum := sum_map_const100 _ _ hpct
    have hlen : ((initReport standards).complianceMappings.length : ℚ) ≠ 0 :=
      Nat.cast_ne_zero.mpr (Nat.pos_iff_ne_zero.mp (List.length_pos.mpr hM))
    have hempty : (initReport standards).complianceMappings.isEmpty = false := by
      simpa [List.isEmpty_iff] using hM
    rw [hempty]
    simp only [Bool.false_eq_true, if_false, hsum]
    rw [mul_div_assoc, div_self hlen, mul_one]
    rfl

/-- The per-result test of `check_financial_specific_rules`: some
critical pattern occurs in the lowercased rule id. -/
def matchesCriticalRule (res : SarifResult) : Bool :=
  criticalRules.any fun cr => containsStr (lowerStr res.ruleId) cr

lemma foundCriticalViolations_eq_nil_iff (results : List SarifResult) :
    foundCriticalViolations results = [] ↔
      ∀ r ∈ results, matchesCriticalRule r = false := by
  unfold foundCriticalViolations matchesCriticalRule
  constructor
  · intro h r hr
    by_contra hne
    rw [Bool.not_eq_false, List.any_eq_true] at hne
    obtain ⟨cr, hcr, hct⟩ := hne
    have : (⟨cr, r.ruleId, r.message, r.level⟩ : CriticalRuleHit) ∈
        ([] : List CriticalRuleHit) := by
      rw [← h]
      refine List.mem_flatMap.mpr ⟨r, hr, ?_⟩
      exact List.mem_filterMap.mpr ⟨cr, hcr, by simp [hct]⟩
    simp at this
  · intro h
    rw [List.flatMap_eq_nil_iff]
    intro r hr
    rw [List.filterMap_eq_nil_iff]
    intro cr hcr
    have := h r hr
    rw [List.any_eq_false] at this
    simp [this cr hcr]

/-! ## Spec-side formulation of the classifier (for the refinement claim) -/

/-- One entry of a framework pattern table, as the spec describes it:
a keyword set, a control id and a description. -/
structure PatternEntry where
  keywords : List String
  control : String
  description : String
deriving DecidableEq, Repr

/-- The ISO 27001 pattern table read off the spec's description of the
classifier. -/
def isoPatternTable : List PatternEntry :=
  [⟨["sql-injection", "xss", "vulnerability"], "A.12.6.1",
    "Management of technical vulnerabilities"⟩,
   ⟨["crypto", "encryption", "cipher", "hash"], "A.10.1.1",
    "Policy on the use of cryptographic controls"⟩,
   ⟨["auth", "access", "authorization"], "A.9.1.1", "Access control policy"⟩]

/-- The RBI IT Framework pattern table. -/
def rbiPatternTable : List PatternEntry :=
  [⟨["sql-injection", "xss", "injection"], "RBI-IT-4.2.1",
    "Application Security - Secure coding practices"⟩,
   ⟨["auth", "session", "access"], "RBI-IT-4.1.3",
    "Access Control and Authentication"⟩,
   ⟨["pii", "personal", "data-protection"], "RBI-IT-4.3.3",
    "Customer Data Protection"⟩]

/-- The SEBI Guidelines pattern table. -/
def sebiPatternTable : List PatternEntry :=
  [⟨["governance", "policy", "procedure"], "SEBI-SG-2.1",
    "System Governance and Risk Management"⟩,
   ⟨["data-integrity", "validation", "consistency"], "SEBI-DI-3.1",
    "Data Integrity and Validation"⟩]

/-- Modelled from the spec's words for the Rule Classifier: one citation
for every entry of the framework's pattern table whose keyword set has a
member contained (case-insensitively) in the rule id, in table order. -/
def specCitePerMatch (fw : String) (table : List PatternEntry)
    (ruleId level : String) : List Mapping :=
  table.filterMap fun e =>
    if e.keywords.any fun t => containsStr (lowerStr ruleId) t then
      some ⟨fw, e.control, e.description, level⟩
    else none

lemma mapToIso_citesPerMatch (ruleId level : String) :
    mapToIso27001 ruleId level = specCitePerMatch "ISO27001" isoPatternTable ruleId level := by
  unfold mapToIso27001 specCitePerMatch isoPatternTable
  cases h1 : (["sql-injection", "xss", "vulnerability"].any
      fun t => containsStr (lowerStr ruleId) t) <;>
  cases h2 : (["crypto", "encryption", "cipher", "hash"].any
      fun t => containsStr (lowerStr ruleId) t) <;>
  cases h3 : (["auth", "access", "authorization"].any
      fun t => containsStr (lowerStr ruleId) t) <;>
  simp_all [List.filterMap_cons]

lemma mapToRbi_citesPerMatch (ruleId level : String) :
    mapToRbiFramework ruleId level =
      specCitePerMatch "RBI-IT-Framework" rbiPatternTable ruleId level := by
  unfold mapToRbiFramework specCitePerMatch rbiPatternTable
  cases h1 : (["sql-injection", "xss", "injection"].any
      fun t => containsStr (lowerStr ruleId) t) <;>
  cases h2 : (["auth", "session", "access"].any
      fun t => containsStr (lowerStr ruleId) t) <;>
  cases h3 : (["pii", "personal", "data-protection"].any
      fun t => containsStr (lowerStr ruleId) t) <;>
  simp_all [List.filterMap_cons]

lemma mapToSebi_citesPerMatch (ruleId level : String) :
    mapToSebiGuidelines ruleId level =
      specCitePerMatch "SEBI-Guidelines" sebiPatternTable ruleId level := by
  unfold mapToSebiGuidelines specCitePerMatch sebiPatternTable
  cases h1 : (["governance", "policy", "procedure"].any
      fun t => containsStr (lowerStr ruleId) t) <;>
  cases h2 : (["data-integrity", "validation", "consistency"].any
      fun t => containsStr (lowerStr ruleId) t) <;>
  simp_all [List.filterMap_cons]

lemma getAssoc_finalizeReport (s : ReportState) (fw : String) :
    getAssoc fw (finalizeReport s).complianceMappings =
      (getAssoc fw s.complianceMappings).map finalizeFramework := by
  rw [mappings_finalizeReport]
  exact getAssoc_map_keyed (fun _ fd => finalizeFramework fd) _ fw

lemma bumpControl_level_congr {l1 l2 : String}
    (h : isCriticalLevel l1 = isCriticalLevel l2) (c d : String)
    (cs : List (String × ControlStats)) :
    bumpControl l1 c d cs = bumpControl l2 c d cs := by
  induction cs with
  | nil => simp [bumpControl, h]
  | cons p t ih =>
    obtain ⟨c', st⟩ := p
    by_cases hc : c' = c <;> simp [bumpControl, hc, h, ih]

lemma foldBumps_level_congr {l1 l2 : String}
    (h : isCriticalLevel l1 = isCriticalLevel l2) (L : List (String × String))
    (cs : List (String × ControlStats)) :
    foldBumps l1 L cs = foldBumps l2 L cs := by
  induction L generalizing cs with
  | nil => rfl
  | cons cd t ih =>
    show foldBumps l1 t (bumpControl l1 cd.1 cd.2 cs) = _
    rw [bumpControl_level_congr h, ih]
    rfl

lemma cdOf_mapToIso_level (r l l' : String) :
    (mapToIso27001 r l).map cdOf = (mapToIso27001 r l').map cdOf := by
  unfold mapToIso27001
  cases h1 : (["sql-injection", "xss", "vulnerability"].any
      fun t => containsStr (lowerStr r) t) <;>
  cases h2 : (["crypto", "encryption", "cipher", "hash"].any
      fun t => containsStr (lowerStr r) t) <;>
  cases h3 : (["auth", "access", "authorization"].any
      fun t => containsStr (lowerStr r) t) <;>
  simp_all [cdOf]

lemma cdOf_mapToRbi_level (r l l' : String) :
    (mapToRbiFramework r l).map cdOf = (mapToRbiFramework r l').map cdOf := by
  unfold mapToRbiFramework
  cases h1 : (["sql-injection", "xss", "injection"].any
      fun t => containsStr (lowerStr r) t) <;>
  cases h2 : (["auth", "session", "access"].any
      fun t => containsStr (lowerStr r) t) <;>
  cases h3 : (["pii", "personal", "data-protection"].any
      fun t => containsStr (lowerStr r) t) <;>
  simp_all [cdOf]

lemma cdOf_mapToSebi_level (r l l' : String) :
    (mapToSebiGuidelines r l).map cdOf = (mapToSebiGuidelines r l').map cdOf := by
  unfold mapToSebiGuidelines
  cases h1 : (["governance", "policy", "procedure"].any
      fun t => containsStr (lowerStr r) t) <;>
  cases h2 : (["data-integrity", "validation", "consistency"].any
      fun t => containsStr (lowerStr r) t) <;>
  simp_all [cdOf]

lemma isEmpty_of_map_cdOf_eq {l1 l2 : List Mapping}
    (h : l1.map cdOf = l2.map cdOf) : l1.isEmpty = l2.isEmpty := by
  have := congrArg List.length h
  simp only [List.length_map] at this
  cases l1 <;> cases l2 <;> simp_all

lemma bumpsFor_level (std : List String) (r lvl lvl' msg msg' : String) (k : String) :
    bumpsFor std ⟨r, lvl, msg⟩ k = bumpsFor std ⟨r, lvl', msg'⟩ k := by
  unfold bumpsFor bumpsForLists
  rw [cdOf_mapToIso_level r (lowerStr lvl) (lowerStr lvl'),
    cdOf_mapToRbi_level r (lowerStr lvl) (lowerStr lvl'),
    cdOf_mapToSebi_level r (lowerStr lvl) (lowerStr lvl'),
    isEmpty_of_map_cdOf_eq (cdOf_mapToIso_level r (lowerStr lvl) (lowerStr lvl')),
    isEmpty_of_map_cdOf_eq (cdOf_mapToRbi_level r (lowerStr lvl) (lowerStr lvl')),
    isEmpty_of_map_cdOf_eq (cdOf_mapToSebi_level r (lowerStr lvl) (lowerStr lvl'))]

/-! ## Claims -/

/-- C7: in `_finalize_report`, `risk_level` is a pure function of
`critical_findings`: it is `"HIGH"` iff `critical_findings > 5`,
`"MEDIUM"` iff `0 < critical_findings ≤ 5`, and `"LOW"` iff
`critical_findings = 0`; it is computed only at finalization, from the
already-folded `critical_findings` counter. -/
theorem c7_risk_level (s : ReportState) :
    ((finalizeReport s).executiveSummary.riskLevel = "HIGH" ↔
      5 < s.executiveSummary.criticalFindings) ∧
    ((finalizeReport s).executiveSummary.riskLevel = "MEDIUM" ↔
      (0 < s.executiveSummary.criticalFindings ∧
        s.executiveSummary.criticalFindings ≤ 5)) ∧
    ((finalizeReport s).executiveSummary.riskLevel = "LOW" ↔
      s.executiveSummary.criticalFindings = 0) := by
  rw [exec_finalizeReport]
  show (riskLevelOf _ = "HIGH" ↔ _) ∧ (riskLevelOf _ = "MEDIUM" ↔ _) ∧
    (riskLevelOf _ = "LOW" ↔ _)
  unfold riskLevelOf
  by_cases h5 : 5 < s.executiveSummary.criticalFindings
  · simp [h5]; omega
  · by_cases h0 : 0 < s.executiveSummary.criticalFindings <;> simp [h5, h0] <;> omega

/-- C2: `generate_quality_gate_report` decides `FAIL` iff some emitted
violation has `fail_build = true`; otherwise the warning outcome (the
status string `"WARNING"`, the spec's WARN) iff the violation list is
non-empty; otherwise `PASS` — tested in that precedence order.  The
`build_decision` field is `FAIL` under exactly the same condition. -/
theorem c2_decision_precedence (findings : SevCounts) (vs : List Violation) :
    ((generateQualityGateReport findings vs).qualityGateStatus = "FAIL" ↔
      ∃ v ∈ vs, v.failBuild = true) ∧
    ((generateQualityGateReport findings vs).buildDecision = "FAIL" ↔
      ∃ v ∈ vs, v.failBuild = true) ∧
    ((generateQualityGateReport findings vs).qualityGateStatus = "WARNING" ↔
      ((¬ ∃ v ∈ vs, v.failBuild = true) ∧ vs ≠ [])) ∧
    ((generateQualityGateReport findings vs).qualityGateStatus = "PASS" ↔ vs = []) := by
  have hiff : (vs.filter (fun v => v.failBuild) = []) ↔ ∀ v ∈ vs, ¬ v.failBuild = true :=
    List.filter_eq_nil_iff
  unfold generateQualityGateReport
  by_cases hf : vs.filter (fun v => v.failBuild) = []
  · have hnofail : ¬ ∃ v ∈ vs, v.failBuild = true := by
      rw [hiff] at hf
      push_neg
      exact fun v hv => by simpa using hf v hv
    by_cases hv : vs = []
    · subst hv; simp
    · simp [hf, hv, List.isEmpty_iff, hnofail]
  · have hfail : ∃ v ∈ vs, v.failBuild = true := by
      by_contra hne
      push_neg at hne
      exact hf (hiff.mpr fun v hv => by simpa using hne v hv)
    have hvne : vs ≠ [] := by
      rintro rfl
      simp at hf
    simp [hf, List.isEmpty_iff, hfail, hvne]

/-- C8: with zero result files the pipeline still produces a complete
result: finalizing the fresh report state yields the executive summary
`{total_findings := 0, critical_findings := 0, compliance_score := 100,
risk_level := "LOW"}` for every configured standards list, the three
violation sources emit no violation under the default gates, and the
quality-gate report decides `PASS`. -/
theorem c8_zero_input_defaults (standards : List String) :
    (runPipeline standards []).executiveSummary = ⟨0, 0, 100, "LOW"⟩ ∧
    evaluateSecurityGates defaultQualityGates (countFindings []) = [] ∧
    checkFinancialSpecificRules [] = [] ∧
    evaluateComplianceScores [] = [] ∧
    (generateQualityGateReport (countFindings [])
      (evaluateSecurityGates defaultQualityGates (countFindings []) ++
        evaluateComplianceScores [] ++
        checkFinancialSpecificRules [])).qualityGateStatus = "PASS" ∧
    (generateQualityGateReport (countFindings [])
      (evaluateSecurityGates defaultQualityGates (countFindings []) ++
        evaluateComplianceScores [] ++
        checkFinancialSpecificRules [])).buildDecision = "PASS" := by
  refine ⟨exec_runPipeline_nil standards, ?_, ?_, ?_, ?_, ?_⟩ <;> rfl

/-- C1 counterexample: the claim lists `data-localization` among the
fixed BFSI-critical patterns, but the source's `critical_rules` entry is
`rbi-data-localization`; a finding whose rule id contains
`data-localization` but not `rbi-data-localization` triggers no
financial-rule violation, so the claim as stated is false. -/
theorem c1_counterexample :
    containsStr (lowerStr "data-localization-check") "data-localization" = true ∧
    checkFinancialSpecificRules [⟨"data-localization-check", "error", "m"⟩] = [] := by
  constructor <;> rfl

/-- C1 (amended): if some finding's lowercased rule id contains one of
the source's four critical patterns (`payment-data-exposure`,
`weak-transaction-encryption`, `pii-exposure`, `rbi-data-localization`),
then `check_financial_specific_rules` emits exactly one aggregated
violation of type `financial_security_violation` with
`fail_build = true`; the check reads no severity and no configured
threshold, so the outcome is independent of both. -/
theorem c1_financial_rule_override (results : List SarifResult)
    (h : results.any matchesCriticalRule = true) :
    (checkFinancialSpecificRules results).map (fun v => (v.kind, v.failBuild)) =
      [("financial_security_violation", true)] := by
  have hne : foundCriticalViolations results ≠ [] := by
    intro heq
    rw [foundCriticalViolations_eq_nil_iff] at heq
    rw [List.any_eq_true] at h
    obtain ⟨r, hr, hm⟩ := h
    rw [heq r hr] at hm
    exact absurd hm (by simp)
  have hempty : (foundCriticalViolations results).isEmpty = false := by
    simpa [List.isEmpty_iff] using hne
  unfold checkFinancialSpecificRules
  simp [hempty, Violation.kind, Violation.failBuild]

/-- C1 witness: a concrete finding matching `payment-data-exposure`
(with a non-critical severity) produces the single build-failing
financial violation. -/
theorem c1_financial_rule_override_witness :
    ([⟨"js/payment-data-exposure", "note", "m"⟩] : List SarifResult).any
      matchesCriticalRule = true ∧
    (checkFinancialSpecificRules [⟨"js/payment-data-exposure", "note", "m"⟩]).map
      (fun v => (v.kind, v.failBuild)) = [("financial_security_violation", true)] :=
  ⟨by decide, c1_financial_rule_override _ (by decide)⟩

lemma ecs_eq_flatMap (l : List (String × ℚ)) :
    evaluateComplianceScores l = l.flatMap fun p => complianceScoreStep p.1 p.2 := by
  unfold evaluateComplianceScores
  suffices hgen : ∀ (l : List (String × ℚ)) (acc : List Violation),
      l.foldl (fun acc p => acc ++ complianceScoreStep p.1 p.2) acc =
        acc ++ l.flatMap (fun p => complianceScoreStep p.1 p.2) by
    simpa using hgen l []
  intro l
  induction l with
  | nil => intro acc; simp
  | cons q t ih =>
    intro acc
    simp [ih, List.flatMap_cons]

/-- C9 counterexample: the claim says evaluation fails fast at setup
when the compliance input references an unknown framework; instead the
evaluator silently applies a default `min_score` of 0 to the unknown
framework and continues, here proceeding past it to evaluate (and flag)
the later `rbi` entry. -/
theorem c9_counterexample :
    getAssoc "unknown-framework" complianceGatesTable = none ∧
    evaluateComplianceScores [("unknown-framework", 50), ("rbi", 50)] =
      [.complianceScore "rbi" 50 90 true
        "RBI IT Framework compliance score below minimum threshold"] := by
  constructor <;> rfl

/-- C9 (amended): a framework name absent from `compliance_gates` is
not rejected: `evaluate_compliance_scores` gives it the defaults
`min_score = 0` and `fail_build = False`, so a non-negative score
produces no violation and evaluation proceeds over the remaining
entries as if the unknown entry were absent — there is no fail-fast. -/
theorem c9_unknown_framework_defaulted (fw : String) (score : ℚ)
    (rest : List (String × ℚ)) (h1 : getAssoc fw complianceGatesTable = none)
    (h2 : 0 ≤ score) :
    complianceScoreStep fw score = [] ∧
    evaluateComplianceScores ((fw, score) :: rest) = evaluateComplianceScores rest := by
  have hstep : complianceScoreStep fw score = [] := by
    unfold complianceScoreStep
    rw [h1]
    simp [not_lt.mpr h2]
  refine ⟨hstep, ?_⟩
  rw [ecs_eq_flatMap, ecs_eq_flatMap, List.flatMap_cons, hstep, List.nil_append]

/-- C9 witness: the concrete unknown framework `unknown-framework` with
score 50 is skipped without any violation. -/
theorem c9_unknown_framework_defaulted_witness :
    (getAssoc "unknown-framework" complianceGatesTable = none ∧ (0 : ℚ) ≤ 50) ∧
    (complianceScoreStep "unknown-framework" 50 = [] ∧
      evaluateComplianceScores [("unknown-framework", (50 : ℚ))] =
        evaluateComplianceScores []) :=
  ⟨⟨by decide, by norm_num⟩,
   c9_unknown_framework_defaulted "unknown-framework" 50 [] (by decide) (by norm_num)⟩

/-- C5 counterexample: the claim says a rule id containing
`sql-injection` yields exactly the two citations A.12.6.1 and
RBI-IT-4.2.1 and no others; `sql-injection-auth` contains
`sql-injection` yet yields four citations, among them ISO 27001 control
A.9.1.1. -/
theorem c5_counterexample :
    containsStr (lowerStr "sql-injection-auth") "sql-injection" = true ∧
    ((mapToIso27001 "sql-injection-auth" "error") ++
      (mapToRbiFramework "sql-injection-auth" "error")).length = 4 ∧
    (⟨"ISO27001", "A.9.1.1", "Access control policy", "error"⟩ : Mapping) ∈
      mapToIso27001 "sql-injection-auth" "error" := by
  refine ⟨by rfl, by rfl, by decide⟩

/-- C5 (amended): every rule id whose lowercased form contains
`sql-injection` receives at least the two citations ISO 27001
`A.12.6.1` and RBI `RBI-IT-4.2.1`; further citations appear exactly
when the rule id also matches other keyword entries of the tables. -/
theorem c5_sql_injection_citations (ruleId level : String)
    (h : containsStr (lowerStr ruleId) "sql-injection" = true) :
    (⟨"ISO27001", "A.12.6.1", "Management of technical vulnerabilities", level⟩ : Mapping) ∈
      mapToIso27001 ruleId level ∧
    (⟨"RBI-IT-Framework", "RBI-IT-4.2.1",
      "Application Security - Secure coding practices", level⟩ : Mapping) ∈
      mapToRbiFramework ruleId level := by
  constructor
  · unfold mapToIso27001
    simp [h]
  · unfold mapToRbiFramework
    simp [h]

/-- C5 witness: the bare rule id `sql-injection` receives both
citations. -/
theorem c5_sql_injection_citations_witness :
    containsStr (lowerStr "sql-injection") "sql-injection" = true ∧
    ((⟨"ISO27001", "A.12.6.1", "Management of technical vulnerabilities", "error"⟩ : Mapping) ∈
      mapToIso27001 "sql-injection" "error" ∧
    (⟨"RBI-IT-Framework", "RBI-IT-4.2.1",
      "Application Security - Secure coding practices", "error"⟩ : Mapping) ∈
      mapToRbiFramework "sql-injection" "error") :=
  ⟨by rfl, c5_sql_injection_citations "sql-injection" "error" (by rfl)⟩

/-- C4 counterexample: the claim says every classifier produces one
citation per matching pattern-table entry (not first-match-wins), and
cites `SARIFProcessor.get_rbi_mapping` as one of its code sources; but
for `sql-injection-payment-data-exposure` two entries of
`rbi_mappings` match while `get_rbi_mapping` returns only the first
(`RBI-IT-4.2.1`), never citing `RBI-IT-4.3.3`. -/
theorem c4_counterexample :
    (sarifRbiMappings.countP fun pm =>
      containsStr (lowerStr "sql-injection-payment-data-exposure") pm.1) = 2 ∧
    getRbiMapping "sql-injection-payment-data-exposure" =
      some ⟨"RBI-IT-4.2.1", "RBI IT Framework control RBI-IT-4.2.1",
        "Information Security"⟩ := by
  constructor <;> rfl

/-- C4 (amended): the report generator's three per-framework mappers
produce one citation for every entry of their pattern table whose
keyword set has a member contained (case-insensitively) in the rule id
— not exclusive, not first-match-wins; the SARIF processor's
`get_rbi_mapping`, by contrast, returns only the first matching entry
of its table, hence at most one citation per rule id. -/
theorem c4_classifier_matching (ruleId level : String) :
    mapToIso27001 ruleId level =
      specCitePerMatch "ISO27001" isoPatternTable ruleId level ∧
    mapToRbiFramework ruleId level =
      specCitePerMatch "RBI-IT-Framework" rbiPatternTable ruleId level ∧
    mapToSebiGuidelines ruleId level =
      specCitePerMatch "SEBI-Guidelines" sebiPatternTable ruleId level ∧
    getRbiMapping ruleId =
      ((sarifRbiMappings.find? fun pm => containsStr (lowerStr ruleId) pm.1).map
        fun pm => ⟨pm.2, "RBI IT Framework control " ++ pm.2, "Information Security"⟩) := by
  refine ⟨mapToIso_citesPerMatch ruleId level, mapToRbi_citesPerMatch ruleId level,
    mapToSebi_citesPerMatch ruleId level, ?_⟩
  unfold getRbiMapping sarifRbiMappings
  cases hc1 : containsStr (lowerStr ruleId) "sql-injection" <;>
  cases hc2 : containsStr (lowerStr ruleId) "weak-cryptographic-algorithm" <;>
  cases hc3 : containsStr (lowerStr ruleId) "hardcoded-credentials" <;>
  cases hc4 : containsStr (lowerStr ruleId) "sensitive-data-exposure" <;>
  cases hc5 : containsStr (lowerStr ruleId) "payment-data-exposure" <;>
  simp [firstRbiMatch, hc1, hc2, hc3, hc4, hc5]

/-- C6: for every sequence of folded findings (and every configured
standards list), each finalized framework block satisfies:
`compliance_percentage ∈ [0, 100]`; it equals
`max(0, 100 − failed_controls/total_controls × 100)` with
`total_controls = max(1, number of distinct controls cited)` (the
control keys are duplicate-free, so the list length is the distinct
count, and `failed_controls` counts the controls with a critical
finding); and it equals 100 when no control was ever cited. -/
theorem c6_compliance_percentage_bounds (standards : List String)
    (results : List SarifResult) (fw : String) (fd : FrameworkData)
    (h : getAssoc fw (runPipeline standards results).complianceMappings = some fd) :
    0 ≤ fd.compliancePercentage ∧ fd.compliancePercentage ≤ 100 ∧
    fd.compliancePercentage =
      max 0 (100 - (fd.failedControls : ℚ) / (fd.totalControls : ℚ) * 100) ∧
    fd.totalControls = max 1 fd.controls.length ∧
    fd.failedControls =
      fd.controls.countP (fun p => decide (0 < p.2.criticalFindings)) ∧
    (fd.controls.map Prod.fst).Nodup ∧
    (fd.controls = [] → fd.compliancePercentage = 100) := by
  unfold runPipeline at h
  rw [getAssoc_finalizeReport] at h
  cases hM : getAssoc fw
      (results.foldl foldFinding (initReport standards)).complianceMappings with
  | none => rw [hM] at h; simp at h
  | some fd0 =>
    rw [hM] at h
    simp only [Option.map_some'] at h
    have hnd : (fd0.controls.map Prod.fst).Nodup :=
      wf_foldl results (initReport standards) (wf_init standards) _
        (getAssoc_eq_some_mem hM)
    obtain rfl : finalizeFramework fd0 = fd := by injection h
    have hspec := finalizeFramework_spec fd0
    exact ⟨hspec.1, hspec.2.1, hspec.2.2.1, hspec.2.2.2.1, hspec.2.2.2.2.1,
      hnd, hspec.2.2.2.2.2⟩

/-- The finalized RBI framework block of the spec's Scenario B: one
cited control, failed, with compliance percentage
`max 0 (100 - 1/1*100)`, i.e. 0. -/
def scenarioBFramework : FrameworkData :=
  ⟨1, 1, max 0 (100 - ((1 : ℕ) : ℚ) / ((1 : ℕ) : ℚ) * 100),
   [("RBI-IT-4.2.1", ⟨1, 1, "Application Security - Secure coding practices"⟩)]⟩

/-- C6 witness: the spec's Scenario B — a single critical
`sql-injection-detected` finding under the RBI framework yields the
finalized block with one failed control out of one, and all the bounds
hold of it. -/
theorem c6_compliance_percentage_bounds_witness :
    getAssoc "RBI-IT-Framework"
      (runPipeline ["RBI-IT-Framework"]
        [⟨"sql-injection-detected", "error", "m"⟩]).complianceMappings =
      some scenarioBFramework ∧
    (0 ≤ scenarioBFramework.compliancePercentage ∧
     scenarioBFramework.compliancePercentage ≤ 100 ∧
     scenarioBFramework.compliancePercentage =
       max 0 (100 - (scenarioBFramework.failedControls : ℚ) /
         (scenarioBFramework.totalControls : ℚ) * 100) ∧
     scenarioBFramework.totalControls = max 1 scenarioBFramework.controls.length ∧
     scenarioBFramework.failedControls =
       scenarioBFramework.controls.countP (fun p => decide (0 < p.2.criticalFindings)) ∧
     (scenarioBFramework.controls.map Prod.fst).Nodup ∧
     (scenarioBFramework.controls = [] →
       scenarioBFramework.compliancePercentage = 100)) :=
  ⟨by rfl,
   c6_compliance_percentage_bounds ["RBI-IT-Framework"]
     [⟨"sql-injection-detected", "error", "m"⟩] "RBI-IT-Framework"
     scenarioBFramework (by rfl)⟩

lemma isEmpty_mappings_foldTwice (s : ReportState) (a b : SarifResult) :
    (foldTwice s a b).complianceMappings.isEmpty = s.complianceMappings.isEmpty := by
  rw [mappings_foldTwice]
  cases s.complianceMappings <;> simp

/-- C3: folding two classified findings in either order and finalizing
yields the same per-framework statistics (`failed_controls`,
`total_controls`, `compliance_percentage`), the same per-control
counters, and the same executive summary, for every well-formed
aggregation state (duplicate-free control keys, as every reachable
state has): the fold is order-independent in everything the report
exposes. -/
theorem c3_fold_order_independent (s : ReportState) (a b : SarifResult)
    (fw ctl : String)
    (hwf : ∀ p ∈ s.complianceMappings, (p.2.controls.map Prod.fst).Nodup) :
    ((getAssoc fw (foldTwice s a b).complianceMappings).map fun fd =>
        (fd.failedControls, fd.totalControls, fd.compliancePercentage)) =
      ((getAssoc fw (foldTwice s b a).complianceMappings).map fun fd =>
        (fd.failedControls, fd.totalControls, fd.compliancePercentage)) ∧
    ((getAssoc fw (foldTwice s a b).complianceMappings).bind fun fd =>
        getAssoc ctl fd.controls) =
      ((getAssoc fw (foldTwice s b a).complianceMappings).bind fun fd =>
        getAssoc ctl fd.controls) ∧
    (foldTwice s a b).executiveSummary = (foldTwice s b a).executiveSummary := by
  have hA := getAssoc_foldTwice s a b fw
  have hB := getAssoc_foldTwice s b a fw
  have hexec : (foldTwice s a b).executiveSummary = (foldTwice s b a).executiveSummary := by
    rw [exec_foldTwice, exec_foldTwice]
    have hcrit : s.executiveSummary.criticalFindings +
        (if isCriticalLevel (lowerStr a.level) then 1 else 0) +
        (if isCriticalLevel (lowerStr b.level) then 1 else 0) =
        s.executiveSummary.criticalFindings +
        (if isCriticalLevel (lowerStr b.level) then 1 else 0) +
        (if isCriticalLevel (lowerStr a.level) then 1 else 0) :=
      Nat.add_right_comm _ _ _
    have hscore := score_map_foldTwice s a b hwf
    have hsum : ((foldTwice s a b).complianceMappings.map
        fun p => p.2.compliancePercentage).sum =
        ((foldTwice s b a).complianceMappings.map
        fun p => p.2.compliancePercentage).sum := by rw [hscore]
    have hlen : (foldTwice s a b).complianceMappings.length =
        (foldTwice s b a).complianceMappings.length := by
      rw [length_mappings_foldTwice, length_mappings_foldTwice]
    have hemp : (foldTwice s a b).complianceMappings.isEmpty =
        (foldTwice s b a).complianceMappings.isEmpty := by
      rw [isEmpty_mappings_foldTwice, isEmpty_mappings_foldTwice]
    have hscorefield : (if (foldTwice s a b).complianceMappings.isEmpty then (100 : ℚ)
        else (((foldTwice s a b).complianceMappings.map
            fun p => p.2.compliancePercentage).sum /
          ((foldTwice s a b).complianceMappings.length : ℚ))) =
        (if (foldTwice s b a).complianceMappings.isEmpty then (100 : ℚ)
        else (((foldTwice s b a).complianceMappings.map
            fun p => p.2.compliancePercentage).sum /
          ((foldTwice s b a).complianceMappings.length : ℚ))) := by
      rw [hemp, hsum, hlen]
    rw [hcrit, hscorefield]
  refine ⟨?_, ?_, hexec⟩
  · rw [hA, hB]
    cases hM : getAssoc fw s.complianceMappings with
    | none => rfl
    | some fd =>
      have hnd := hwf _ (getAssoc_eq_some_mem hM)
      have hproj := finalize_proj_of_perm (applyBumps_perm s.standards a b fw hnd)
      simp only [Option.map_some', Option.some.injEq, Prod.mk.injEq]
      exact ⟨hproj.1, hproj.2.1, hproj.2.2⟩
  · rw [hA, hB]
    cases hM : getAssoc fw s.complianceMappings with
    | none => rfl
    | some fd =>
      have hle := applyBumps_lookupEq s.standards a b fw fd
      simp only [Option.map_some', Option.some_bind]
      exact hle ctl

/-- C3 witness: two concrete findings folded in either order into a
fresh ISO 27001 state yield identical finalized statistics, per-control
counters for A.12.6.1, and executive summaries. -/
theorem c3_fold_order_independent_witness :
    (∀ p ∈ (initReport ["ISO27001"]).complianceMappings,
      (p.2.controls.map Prod.fst).Nodup) ∧
    (((getAssoc "ISO27001" (foldTwice (initReport ["ISO27001"])
          ⟨"sql-injection", "error", "m"⟩ ⟨"crypto-auth", "warning", "m"⟩).complianceMappings).map
        fun fd => (fd.failedControls, fd.totalControls, fd.compliancePercentage)) =
      ((getAssoc "ISO27001" (foldTwice (initReport ["ISO27001"])
          ⟨"crypto-auth", "warning", "m"⟩ ⟨"sql-injection", "error", "m"⟩).complianceMappings).map
        fun fd => (fd.failedControls, fd.totalControls, fd.compliancePercentage)) ∧
    ((getAssoc "ISO27001" (foldTwice (initReport ["ISO27001"])
          ⟨"sql-injection", "error", "m"⟩ ⟨"crypto-auth", "warning", "m"⟩).complianceMappings).bind
        fun fd => getAssoc "A.12.6.1" fd.controls) =
      ((getAssoc "ISO27001" (foldTwice (initReport ["ISO27001"])
          ⟨"crypto-auth", "warning", "m"⟩ ⟨"sql-injection", "error", "m"⟩).complianceMappings).bind
        fun fd => getAssoc "A.12.6.1" fd.controls) ∧
    (foldTwice (initReport ["ISO27001"])
        ⟨"sql-injection", "error", "m"⟩ ⟨"crypto-auth", "warning", "m"⟩).executiveSummary =
      (foldTwice (initReport ["ISO27001"])
        ⟨"crypto-auth", "warning", "m"⟩ ⟨"sql-injection", "error", "m"⟩).executiveSummary) :=
  ⟨by decide,
   c3_fold_order_independent (initReport ["ISO27001"])
     ⟨"sql-injection", "error", "m"⟩ ⟨"crypto-auth", "warning", "m"⟩
     "ISO27001" "A.12.6.1" (by decide)⟩

/-- C10: in the report generator, a finding whose lowercased level is
`"critical"` (outside the documented SARIF level set) is treated exactly
like `"error"`: it increments `ExecutiveSummary.critical_findings`,
updates every cited control's statistics identically (including the
per-control `critical_findings` counters), and gets remediation
priority `"HIGH"`; a level that lowercases to neither `"error"` nor
`"critical"` is non-critical and leaves the critical counter
unchanged. -/
theorem c10_critical_level (s : ReportState) (r lvl lvl' msg : String)
    (h : lowerStr lvl = "critical")
    (h2 : lowerStr lvl' ≠ "critical") (h3 : lowerStr lvl' ≠ "error") :
    (foldFinding s ⟨r, lvl, msg⟩).executiveSummary.criticalFindings =
      s.executiveSummary.criticalFindings + 1 ∧
    (foldFinding s ⟨r, lvl, msg⟩).complianceMappings =
      (foldFinding s ⟨r, "error", msg⟩).complianceMappings ∧
    calculatePriority (lowerStr lvl) r = "HIGH" ∧
    isCriticalLevel (lowerStr lvl') = false ∧
    (foldFinding s ⟨r, lvl', msg⟩).executiveSummary.criticalFindings =
      s.executiveSummary.criticalFindings := by
  have hcrit' : isCriticalLevel (lowerStr lvl') = false := by
    simp [isCriticalLevel, h2, h3]
  have hlev : isCriticalLevel (lowerStr lvl) = isCriticalLevel (lowerStr "error") := by
    rw [h]; rfl
  refine ⟨?_, ?_, ?_, hcrit', ?_⟩
  · rw [exec_foldFinding]
    simp [h, isCriticalLevel]
  · rw [mappings_foldFinding, mappings_foldFinding]
    refine List.map_congr_left fun p _ => ?_
    unfold applyFrameworkBumps
    rw [show (⟨r, lvl, msg⟩ : SarifResult).level = lvl from rfl,
      show (⟨r, "error", msg⟩ : SarifResult).level = "error" from rfl,
      bumpsFor_level s.standards r lvl "error" msg msg p.1,
      foldBumps_level_congr hlev]
  · rw [h]; rfl
  · rw [exec_foldFinding]
    simp [hcrit']

/-- C10 witness: level `"Critical"` (lowercased to `"critical"`) on a
fresh state behaves like `"error"` and gets priority HIGH, while
`"warning"` is non-critical. -/
theorem c10_critical_level_witness :
    (lowerStr "Critical" = "critical" ∧ lowerStr "warning" ≠ "critical" ∧
      lowerStr "warning" ≠ "error") ∧
    ((foldFinding (initReport ["ISO27001"])
        ⟨"x", "Critical", "m"⟩).executiveSummary.criticalFindings =
      (initReport ["ISO27001"]).executiveSummary.criticalFindings + 1 ∧
    (foldFinding (initReport ["ISO27001"]) ⟨"x", "Critical", "m"⟩).complianceMappings =
      (foldFinding (initReport ["ISO27001"]) ⟨"x", "error", "m"⟩).complianceMappings ∧
    calculatePriority (lowerStr "Critical") "x" = "HIGH" ∧
    isCriticalLevel (lowerStr "warning") = false ∧
    (foldFinding (initReport ["ISO27001"])
        ⟨"x", "warning", "m"⟩).executiveSummary.criticalFindings =
      (initReport ["ISO27001"]).executiveSummary.criticalFindings) :=
  ⟨⟨by rfl, by decide, by decide⟩,
   c10_critical_level (initReport ["ISO27001"]) "x" "Critical" "warning" "m"
     (by rfl) (by decide) (by decide)⟩

end BFSI
